import Mathlib

/-!
Verification of the PrettyPandas styler (`prettypandas/styler.py`) against its
natural-language specification.

The development shallowly embeds the parts of `styler.py` that the claims are
about: the table data model, `multi_summary` (summary registration), the
`Formatter` record and `_format_cells`, `_apply_formatters`,
`_apply_summaries`, `get_formatted_df`, and the header-merge post-processing
step of `_translate`.

Modelling conventions:
* A pandas `DataFrame` is a `DFrame`: a row-label list (`index`), a
  column-label list (`columns`) and a rectangular list of cell rows.
* Cell values are `Value`: a number (`num`), a display string (`str`), or the
  null value `none` (modelling Python `None` / `NaN`).
* Aggregation functions (externals such as `np.sum`) are opaque Lean functions
  `List Value → Value`; keyword arguments are considered pre-applied.
* `pd.concat` is modelled at its use sites, in the aligned situation that
  `multi_summary` produces (summary columns carry the same index as the table;
  summary rows carry a subset of the merged columns) and under the
  specification invariant that summary titles are unique per axis.
* Exceptions are modelled by `Except` / `Option PPError`; `PPError.invalidAxis`
  stands for the `ValueError` raised by `_apply_formatters`, and
  `PPError.noAxisNamed a` for the error pandas `DataFrame.apply` raises on an
  axis other than 0 and 1.
-/

/-- A row or column label.  `styler.py` uses arbitrary hashables; strings
suffice for the embedding. -/
abbrev Label := String

/-- A cell value: a number, a display string, or the null value
(Python `None` / `NaN`). -/
inductive Value where
  | num : Int → Value
  | str : String → Value
  | none : Value
deriving DecidableEq, Repr

/-- A labeled two-dimensional table, modelling a pandas `DataFrame`:
row labels, column labels, and cells stored row-major. -/
structure DFrame where
  index : List Label
  columns : List Label
  cells : List (List Value)
deriving DecidableEq, Repr, Inhabited

/-- Errors of the render pipeline.  `invalidAxis` models the
`ValueError` raised at `styler.py:367`; `noAxisNamed a` models the error
pandas `DataFrame.apply` raises when given an axis other than 0 and 1. -/
inductive PPError where
  | invalidAxis : PPError
  | noAxisNamed : Int → PPError
deriving DecidableEq, Repr

/-- An aggregation function (external, e.g. `np.sum`), applied to the list of
values along one axis; keyword arguments are pre-applied. -/
abbrev AggFn := List Value → Value

/-- Index of the first occurrence of a label in a list, if any. -/
def lookupIdx (x : Label) : List Label → Option Nat
  | [] => Option.none
  | y :: ys => if y = x then Option.some 0 else (lookupIdx x ys).map (· + 1)

/-- The cell at (row `i`, column `j`), positionally; null when out of range. -/
def DFrame.cellAt (d : DFrame) (i j : Nat) : Value :=
  (d.cells.getD i []).getD j Value.none

/-- The cell at row label `r` and column label `c` (first occurrences);
null when a label is absent. -/
def DFrame.getCellL (d : DFrame) (r c : Label) : Value :=
  match lookupIdx r d.index, lookupIdx c d.columns with
  | Option.some i, Option.some j => d.cellAt i j
  | _, _ => Value.none

/-- The list of columns of a frame, each read off positionally
(the `j`-th value of every row). -/
def DFrame.colsOf (d : DFrame) : List (List Value) :=
  (List.range d.columns.length).map (fun j => d.cells.map (fun r => r.getD j Value.none))

/-- Transpose of a frame (`DataFrame.T`), used by `multi_summary` to turn a
single-column summary frame into a single-row one (`styler.py:202`). -/
def DFrame.transposeF (d : DFrame) : DFrame :=
  { index := d.columns
    columns := d.index
    cells := (List.range d.columns.length).map (fun j => d.cells.map (fun r => r.getD j Value.none)) }

/-- A registered formatter (`Formatter` namedtuple, `styler.py:52`):
subset, excluded labels, axis (a string, `"columns"` by default), and the
formatting function with its keyword arguments pre-applied. -/
structure Formatter where
  subset : Option (List Label)
  exclude : Option (List Label)
  axis : String
  function : Value → Value

/-- The state of a `PrettyPandas` styler that the claims are about:
the stored table, the registered summary rows/columns, the registered
formatters, the accumulated CSS `table_styles` selectors, the cached
`self.index` / `self.columns` of the underlying `Styler`, and the
`replace_all_nans_with` policy. -/
structure PrettyState where
  data : DFrame
  summary_rows : List DFrame
  summary_cols : List DFrame
  formatters : List Formatter
  table_styles : List String
  index : List Label
  columns : List Label
  replace_all_nans_with : Option String

/-- `multi_summary` for a concrete (non-`None`) axis, `styler.py:176-208`.
For `axis = 0` the summary names are the columns and, with a subset, the
iteration is over columns (`iteritems`); for every other axis value the names
are the row index and the iteration is over rows (`iterrows`), mirroring the
`if axis == 0 ... else ...` in the source.  With no subset the source calls
`DataFrame.apply(f, axis=axis)`, which fails for an axis other than 0 and 1.
Note that the final dispatch constructs but does not raise the
invalid-axis `ValueError` (`styler.py:206`), so an unrecognized axis falls
through and returns the instance unchanged. -/
def buildOutputs (data : DFrame) (axis : Int) (subset : Option (List Label)) :
    List (AggFn × Label) → Except PPError (List DFrame)
  | [] => Except.ok []
  | (f, t) :: rest =>
    let frameE : Except PPError DFrame :=
      match subset with
      | Option.none =>
        if axis = 0 then
          Except.ok { index := data.columns, columns := [t],
                      cells := data.colsOf.map (fun col => [f col]) }
        else if axis = 1 then
          Except.ok { index := data.index, columns := [t],
                      cells := data.cells.map (fun row => [f row]) }
        else
          Except.error (PPError.noAxisNamed axis)
      | Option.some s =>
        if axis = 0 then
          Except.ok { index := data.columns, columns := [t],
                      cells := (data.columns.zip data.colsOf).map
                        (fun p => [if p.1 ∈ s then f p.2 else Value.none]) }
        else
          Except.ok { index := data.index, columns := [t],
                      cells := (data.index.zip data.cells).map
                        (fun p => [if p.1 ∈ s then f p.2 else Value.none]) }
    match frameE with
    | Except.error e => Except.error e
    | Except.ok frame =>
      match buildOutputs data axis subset rest with
      | Except.error e => Except.error e
      | Except.ok frames => Except.ok (frame :: frames)

/-- Body of `multi_summary` for a concrete axis value (`styler.py:176-208`). -/
def multi_summary_ax (st : PrettyState) (funcs : List AggFn) (titles : List Label)
    (axis : Int) (subset exclude : Option (List Label)) : Except PPError PrettyState :=
  let summary_names := if axis = 0 then st.data.columns else st.data.index
  let subset := if exclude.isSome ∧ subset.isNone
    then Option.some (summary_names.filter (fun n => n ∉ exclude.getD []))
    else subset
  match buildOutputs st.data axis subset (funcs.zip titles) with
  | Except.error e => Except.error e
  | Except.ok output =>
    if axis = 0 then
      Except.ok { st with summary_rows := st.summary_rows ++ output.map DFrame.transposeF }
    else if axis = 1 then
      Except.ok { st with summary_cols := st.summary_cols ++ output }
    else
      Except.ok st

/-- `multi_summary` (`styler.py:160-208`).  For `axis=None` the source recurses
with `axis=0` and then `axis=1`, forwarding only `funcs`, `titles` and
`**kwargs` — the `subset` and `exclude` arguments are not forwarded and reset
to their `None` defaults. -/
def multi_summary (st : PrettyState) (funcs : List AggFn) (titles : List Label)
    (axis : Option Int) (subset exclude : Option (List Label)) : Except PPError PrettyState :=
  match axis with
  | Option.none =>
    match multi_summary_ax st funcs titles 0 Option.none Option.none with
    | Except.error e => Except.error e
    | Except.ok s1 => multi_summary_ax s1 funcs titles 1 Option.none Option.none
  | Option.some a => multi_summary_ax st funcs titles a subset exclude

/-- `summary` (`styler.py:144-158`): a single-function `multi_summary`. -/
def summary (st : PrettyState) (func : AggFn) (title : Label) (axis : Option Int) :
    Except PPError PrettyState :=
  multi_summary st [func] [title] axis Option.none Option.none

/-- `_format_cells` (`styler.py:345-357`): registers a formatter by appending
it to the formatter list.  Registration never touches the data and never
raises; the nan-replacement keyword and the other keyword arguments are
pre-applied inside `func`. -/
def format_cells (st : PrettyState) (func : Value → Value)
    (subset exclude : Option (List Label)) (axis : String) : PrettyState :=
  { st with formatters := st.formatters ++ [⟨subset, exclude, axis, func⟩] }

/-- Elementwise application of `fn` to the entries of a row whose column label
is in `subset` (the column-axis `applymap` over `loc[:, subset]`,
`styler.py:379`). -/
def mapRowCols (subset : List Label) (fn : Value → Value) :
    List Label → List Value → List Value
  | c :: cs, x :: xs => (if c ∈ subset then fn x else x) :: mapRowCols subset fn cs xs
  | _, xs => xs

/-- `mapRowCols` applied to every row. -/
def mapCellsCols (cols : List Label) (subset : List Label) (fn : Value → Value) :
    List (List Value) → List (List Value)
  | [] => []
  | r :: rs => mapRowCols subset fn cols r :: mapCellsCols cols subset fn rs

/-- Elementwise application of `fn` to the rows whose row label is in `subset`
(the row-axis `applymap` over `loc[subset, :]`, `styler.py:381`). -/
def mapRowsIdx (subset : List Label) (fn : Value → Value) :
    List Label → List (List Value) → List (List Value)
  | i :: is, r :: rs => (if i ∈ subset then r.map fn else r) :: mapRowsIdx subset fn is rs
  | _, rs => rs

/-- Apply a formatting function to every cell in the given label subset along
the given (already validated) axis. -/
def mapCells (d : DFrame) (axis : String) (subset : List Label) (fn : Value → Value) : DFrame :=
  if axis = "columns" then
    { d with cells := mapCellsCols d.columns subset fn d.cells }
  else
    { d with cells := mapRowsIdx subset fn d.index d.cells }

/-- One iteration of the `_apply_formatters` loop body after the axis check
(`styler.py:368-381`): resolve the subset against the axis labels, skip
(`continue`) when an explicit subset has no label in common with the table,
otherwise remove the excluded labels and apply the function elementwise. -/
def applyOneFormatter (d : DFrame) (f : Formatter) : DFrame :=
  let idx := if f.axis = "columns" then d.columns else d.index
  match f.subset with
  | Option.none =>
    let subset := idx
    let subset := match f.exclude with
      | Option.some ex => subset.filter (fun s => s ∉ ex)
      | Option.none => subset
    mapCells d f.axis subset f.function
  | Option.some s =>
    let subset := s.filter (fun x => x ∈ idx)
    if subset = [] then d
    else
      let subset := match f.exclude with
        | Option.some ex => subset.filter (fun x => x ∉ ex)
        | Option.none => subset
      mapCells d f.axis subset f.function

/-- `_apply_formatters` (`styler.py:359-382`): fold the formatter list over
the working table.  On an axis other than `"columns"` and `"rows"` the loop
raises immediately; the returned pair carries the table as mutated so far and
the error, because the exception escapes `get_formatted_df` before the
stored table is restored. -/
def applyFormattersList : List Formatter → DFrame → DFrame × Option PPError
  | [], d => (d, Option.none)
  | f :: fs, d =>
    if f.axis = "columns" ∨ f.axis = "rows" then
      applyFormattersList fs (applyOneFormatter d f)
    else
      (d, Option.some PPError.invalidAxis)

/-- The resolved target label set of a formatter against a table, as the
specification describes it: the subset restricted to the labels of the
formatter axis, minus the excluded labels. -/
def resolvedTarget (f : Formatter) (d : DFrame) : List Label :=
  let idx := if f.axis = "columns" then d.columns else d.index
  let s0 := match f.subset with
    | Option.none => idx
    | Option.some s => s.filter (fun x => x ∈ idx)
  match f.exclude with
  | Option.none => s0
  | Option.some ex => s0.filter (fun x => x ∉ ex)

/-- Pointwise append of summary-column cells to the rows of the table,
modelling `pd.concat(axis=1)` for frames sharing the same row index
(`styler.py:399-401`). -/
def zipAppend : List (List Value) → List (List Value) → List (List Value)
  | r :: rs, s :: ss => (r ++ s) :: zipAppend rs ss
  | rs, [] => rs
  | [], _ => []

/-- Concatenate one summary-column frame onto the right of the table,
modelling `pd.concat([data, s], axis=1)` in the aligned case
(`s.index = d.index`, as `multi_summary` produces). -/
def hconcatOne (d s : DFrame) : DFrame :=
  { index := d.index
    columns := d.columns ++ s.columns
    cells := zipAppend d.cells s.cells }

/-- Concatenate one summary-row frame onto the bottom of the table, modelling
`pd.concat([data, s], axis=0)` when `s.columns ⊆ d.columns` (as holds for the
frames `multi_summary` produces): every appended row is realigned to the
columns of the table, with null (`NaN`) at columns the summary row lacks. -/
def vconcatOne (d s : DFrame) : DFrame :=
  { index := d.index ++ s.index
    columns := d.columns
    cells := d.cells ++ s.cells.map (fun r => d.columns.map (fun c =>
      match lookupIdx c s.columns with
      | Option.some j => r.getD j Value.none
      | Option.none => Value.none)) }

/-- Column selection `data[cs]` (`styler.py:418`), reading each requested
label off by its first occurrence; assumes the selected labels are unique in
the frame, per the specification invariant on summary titles. -/
def selectCols (d : DFrame) (cs : List Label) : DFrame :=
  { index := d.index
    columns := cs
    cells := d.cells.map (fun r => cs.map (fun c =>
      match lookupIdx c d.columns with
      | Option.some j => r.getD j Value.none
      | Option.none => Value.none)) }

/-- Update one row: the entries at columns labelled `c` become `v`. -/
def updRow (c : Label) (v : Value) : List Label → List Value → List Value
  | cl :: cls, x :: xs => (if cl = c then v else x) :: updRow c v cls xs
  | _, xs => xs

/-- Update the cell rows: every cell whose row label is `r` and whose column
label is `c` becomes `v`. -/
def updCells (r c : Label) (v : Value) (cols : List Label) :
    List Label → List (List Value) → List (List Value)
  | rl :: rls, row :: rows =>
    (if rl = r then updRow c v cols row else row) :: updCells r c v cols rls rows
  | _, rows => rows

/-- Label-based cell assignment `data.loc[r, c] = v` (`styler.py:422`). -/
def DFrame.setCellByLabel (d : DFrame) (r c : Label) (v : Value) : DFrame :=
  { d with cells := updCells r c v d.columns d.index d.cells }

/-- Blank every corner cell: for each pair of a summary-row title and a
summary-column title overwrite the cell with the empty string
(`styler.py:420-422`, iterating `product(summary_rownames, summary_colnames)`). -/
def blankCorners (d : DFrame) (rows cols : List Label) : DFrame :=
  rows.foldl (fun acc r => cols.foldl (fun acc2 c => acc2.setCellByLabel r c (Value.str "")) acc) d

/-- The data part of `_apply_summaries` (`styler.py:384-428`): concatenate the
summary columns onto the right and the summary rows onto the bottom, reorder
the columns to original-then-summary, and blank the corner cells. -/
def mergeData (data : DFrame) (srows scols : List DFrame) : DFrame :=
  let colnames := data.columns
  let summary_colnames := scols.map (fun s => s.columns.getD 0 "")
  let summary_rownames := srows.map (fun s => s.index.getD 0 "")
  let d1 := scols.foldl hconcatOne data
  let d2 := srows.foldl vconcatOne d1
  let d3 := selectCols d2 (colnames ++ summary_colnames)
  blankCorners d3 summary_rownames summary_colnames

/-- The CSS selectors `_apply_summaries` appends to `table_styles`
(`styler.py:406-415`); the flat index of the model has one level, so
`ix_cols = len(index_names) = 1`. -/
def summarySelectors (data : DFrame) (srows scols : List DFrame) : List String :=
  let rows := data.index.length
  let cols := data.columns.length
  let ixCols := 1
  (List.range srows.length).map
      (fun i => "tr:nth-child(" ++ toString (rows + i + 1) ++ ")") ++
    (List.range scols.length).map
      (fun i => "td:nth-child(" ++ toString (cols + ixCols + i + 1) ++ ")")

/-- `_apply_summaries` (`styler.py:384-428`): replace the working table by the
merged table and append the summary CSS selectors to `table_styles`. -/
def apply_summaries (st : PrettyState) : PrettyState :=
  { st with
    data := mergeData st.data st.summary_rows st.summary_cols
    table_styles := st.table_styles ++ summarySelectors st.data st.summary_rows st.summary_cols }

/-- The nan-replacement applied to the formatted table when
`replace_all_nans_with` is set (`styler.py:449-451`). -/
def nanReplaceDF (s : String) (d : DFrame) : DFrame :=
  { d with cells := d.cells.map (List.map (fun v => if v = Value.none then Value.str s else v)) }

/-- `get_formatted_df` in tabular-output mode (`styler.py:430-452`): snapshot
the stored table, merge the summaries, apply the formatters, update the cached
`self.index` / `self.columns`, restore the snapshot, and return the formatted
table (with nulls replaced when the policy is set).  When a formatter raises,
the exception escapes before the restoring assignment at `styler.py:444`, so
the returned state keeps the merged, partially formatted working table. -/
def get_formatted_df (st : PrettyState) : Except PPError DFrame × PrettyState :=
  let data := st.data
  let st1 := apply_summaries st
  match applyFormattersList st1.formatters st1.data with
  | (d, Option.some e) => (Except.error e, { st1 with data := d })
  | (d, Option.none) =>
    let st2 := { st1 with data := data, index := d.index, columns := d.columns }
    let out := match st.replace_all_nans_with with
      | Option.some s => nanReplaceDF s d
      | Option.none => d
    (Except.ok out, st2)

/-- A header cell of the render tree produced by the underlying styling
machinery: its CSS class list and its display value. -/
structure HCell where
  cls : List String
  value : String
deriving DecidableEq, Repr

/-- Whether a header cell carries the `blank` CSS marker class. -/
def isBlank (c : HCell) : Bool := "blank" ∈ c.cls

/-- The cell-by-cell merge loop of `_translate` (`styler.py:462-470`): walk
the two header rows in parallel and pick the non-blank cell of each pair;
fail (`None`) as soon as a pair has no unambiguous non-blank candidate. -/
def mergeHeadRows : List HCell → List HCell → Option (List HCell)
  | c0 :: r0, c1 :: r1 =>
    if ¬ isBlank c0 ∧ isBlank c1 then (mergeHeadRows r0 r1).map (c0 :: ·)
    else if isBlank c0 ∧ ¬ isBlank c1 then (mergeHeadRows r0 r1).map (c1 :: ·)
    else Option.none
  | _, _ => Option.some []

/-- The header post-processing of `_translate` (`styler.py:458-473`): with
exactly two header rows, collapse them into one when the cell-by-cell merge
succeeds, and keep both rows otherwise. -/
def translateHead (head : List (List HCell)) : List (List HCell) :=
  match head with
  | [h0, h1] =>
    match mergeHeadRows h0 h1 with
    | Option.some merged => [merged]
    | Option.none => [h0, h1]
  | hs => hs

/-- The summary-row titles of a state (`summary_rownames`, `styler.py:388`). -/
def summaryRowTitles (st : PrettyState) : List Label :=
  st.summary_rows.map (fun s => s.index.getD 0 "")

/-- The summary-column titles of a state (`summary_colnames`, `styler.py:387`). -/
def summaryColTitles (st : PrettyState) : List Label :=
  st.summary_cols.map (fun s => s.columns.getD 0 "")

/-- Rectangularity of a frame: one cell row per index label, one cell per
column label. -/
def DFrame.Dims (d : DFrame) : Prop :=
  d.cells.length = d.index.length ∧ ∀ r ∈ d.cells, r.length = d.columns.length

/-- Well-formedness of a styler state: the stored table is rectangular, every
registered summary column is a rectangular single-column frame aligned with
the row index of the table, and every registered summary row is a rectangular
single-row frame over the columns of the table — the shapes `multi_summary`
produces. -/
def PrettyState.WF (st : PrettyState) : Prop :=
  st.data.Dims ∧
  (∀ s ∈ st.summary_cols,
    s.index = st.data.index ∧ s.columns.length = 1 ∧ s.Dims) ∧
  (∀ s ∈ st.summary_rows,
    s.columns = st.data.columns ∧ s.index.length = 1 ∧ s.Dims)

/-- The frame carried by a successful render result (a default empty frame on
error); used to state concrete witnesses. -/
def okFrame : Except PPError DFrame → DFrame
  | Except.ok d => d
  | Except.error _ => default

instance (d : DFrame) : Decidable d.Dims := by
  unfold DFrame.Dims
  infer_instance

instance (st : PrettyState) : Decidable st.WF := by
  unfold PrettyState.WF
  infer_instance

/-! ### Concrete states used by the witnesses and counterexamples -/

/-- A sum aggregation function over the numeric cells of a slice, standing in
for `np.sum`. -/
def sumA : AggFn := fun l =>
  Value.num (l.foldl (fun a v => match v with | Value.num n => a + n | _ => a) 0)

/-- A one-row two-column table. -/
def df0 : DFrame := ⟨["x"], ["A", "B"], [[Value.num 1, Value.num 2]]⟩

/-- A fresh styler state over a table, as `PrettyPandas.__init__` builds it:
no summaries, no formatters, base styles omitted, cached index/columns taken
from the table. -/
def mkState (d : DFrame) : PrettyState :=
  { data := d, summary_rows := [], summary_cols := [], formatters := [],
    table_styles := [], index := d.index, columns := d.columns,
    replace_all_nans_with := Option.none }

/-- A fresh state over `df0`. -/
def st0 : PrettyState := mkState df0

/-- The summary-row list of the state carried by a `multi_summary` result. -/
def rowsOf : Except PPError PrettyState → List DFrame
  | Except.ok s => s.summary_rows
  | Except.error _ => []

/-- C5 witness state: a fresh state over `df0` with one registered formatter
whose axis is the invalid string `"banana"`, together with a summary row, so
that the merge step visibly changes the working table. -/
def badFmt : Formatter := ⟨Option.none, Option.none, "banana", fun v => v⟩

/-- A summary row over `df0` titled `Total`, as `total()` would register. -/
def srowTotal : DFrame := ⟨["Total"], ["A", "B"], [[Value.num 1, Value.num 2]]⟩

/-- A state with one summary row and one invalid-axis formatter. -/
def stC4 : PrettyState :=
  { mkState df0 with summary_rows := [srowTotal], formatters := [badFmt] }

/-- A formatter with an invalid axis whose resolved target set is empty. -/
def emptyBadFmt : Formatter := ⟨Option.some [], Option.none, "banana", fun v => v⟩

/-- A state with only the empty-target invalid-axis formatter registered. -/
def stC6 : PrettyState := { mkState df0 with formatters := [emptyBadFmt] }

/-- The error component of a render result. -/
def errOf : Except PPError DFrame → Option PPError
  | Except.error e => Option.some e
  | Except.ok _ => Option.none

/-- A valid-axis formatter targeting a label absent from `df0`. -/
def zFmt : Formatter := ⟨Option.some ["Z"], Option.none, "columns", fun v => v⟩

/-- A state with only the absent-label formatter registered. -/
def stW6 : PrettyState := { mkState df0 with formatters := [zFmt] }

/-- A 2-by-2 table with a registered summary row and a registered summary
column, used as the concrete witness state for the merge claims. -/
def df2 : DFrame :=
  ⟨["x", "y"], ["A", "B"], [[Value.num 1, Value.num 2], [Value.num 3, Value.num 4]]⟩

/-- A summary row over `df2` titled `Total` (column sums). -/
def srow2 : DFrame := ⟨["Total"], ["A", "B"], [[Value.num 4, Value.num 6]]⟩

/-- A summary column over `df2` titled `RowTotal` (row sums). -/
def scol2 : DFrame := ⟨["x", "y"], ["RowTotal"], [[Value.num 3], [Value.num 7]]⟩

/-- The witness state for the merge claims. -/
def stW1 : PrettyState :=
  { mkState df2 with summary_rows := [srow2], summary_cols := [scol2] }

/-- A state with one registered summary row over `df0` and no formatters. -/
def stC3 : PrettyState := { mkState df0 with summary_rows := [srowTotal] }

/-! ### Helper lemmas about the list-level operations -/

theorem lookupIdx_mem {x : Label} {l : List Label} (hx : x ∈ l) :
    ∃ i, lookupIdx x l = Option.some i ∧ i < l.length ∧ l.getD i "" = x := by
  induction l with
  | nil => cases hx
  | cons y ys ih =>
    by_cases h : y = x
    · exact ⟨0, by simp [lookupIdx, h], by simp, by simp [h]⟩
    · have hx' : x ∈ ys := by
        rcases List.mem_cons.mp hx with he | h2
        · exact absurd he.symm h
        · exact h2
      obtain ⟨i, hi, hlt, hget⟩ := ih hx'
      refine ⟨i + 1, by simp [lookupIdx, h, hi], by simpa using Nat.succ_lt_succ hlt, ?_⟩
      simpa using hget

theorem updRow_length (c : Label) (v : Value) :
    ∀ (cols : List Label) (row : List Value), (updRow c v cols row).length = row.length := by
  intro cols
  induction cols with
  | nil => intro row; simp [updRow]
  | cons cl cls ih =>
    intro row
    cases row with
    | nil => simp [updRow]
    | cons x xs => simp [updRow, ih]

theorem updRow_getD (c : Label) (v : Value) :
    ∀ (cols : List Label) (row : List Value) (j : Nat),
      j < cols.length → j < row.length →
      (updRow c v cols row).getD j Value.none =
        if cols.getD j "" = c then v else row.getD j Value.none := by
  intro cols
  induction cols with
  | nil => intro row j h1 _; exact absurd h1 (Nat.not_lt_zero j)
  | cons cl cls ih =>
    intro row j h1 h2
    cases row with
    | nil => exact absurd h2 (Nat.not_lt_zero j)
    | cons x xs =>
      cases j with
      | zero => simp [updRow]
      | succ j' =>
        simp only [updRow, List.getD_cons_succ]
        exact ih xs j' (Nat.lt_of_succ_lt_succ h1) (Nat.lt_of_succ_lt_succ h2)

theorem updCells_length (r c : Label) (v : Value) (cols : List Label) :
    ∀ (idx : List Label) (rows : List (List Value)),
      (updCells r c v cols idx rows).length = rows.length := by
  intro idx
  induction idx with
  | nil => intro rows; simp [updCells]
  | cons rl rls ih =>
    intro rows
    cases rows with
    | nil => simp [updCells]
    | cons r0 rs => simp [updCells, ih]

theorem updCells_getD (r c : Label) (v : Value) (cols : List Label) :
    ∀ (idx : List Label) (rows : List (List Value)) (i : Nat),
      i < idx.length → i < rows.length →
      (updCells r c v cols idx rows).getD i [] =
        if idx.getD i "" = r then updRow c v cols (rows.getD i []) else rows.getD i [] := by
  intro idx
  induction idx with
  | nil => intro rows i h1 _; exact absurd h1 (Nat.not_lt_zero i)
  | cons rl rls ih =>
    intro rows i h1 h2
    cases rows with
    | nil => exact absurd h2 (Nat.not_lt_zero i)
    | cons r0 rs =>
      cases i with
      | zero => simp [updCells]
      | succ i' =>
        simp only [updCells, List.getD_cons_succ]
        exact ih rs i' (Nat.lt_of_succ_lt_succ h1) (Nat.lt_of_succ_lt_succ h2)

theorem updCells_widths (r c : Label) (v : Value) (cols : List Label) {n : Nat} :
    ∀ (idx : List Label) (rows : List (List Value)),
      (∀ row ∈ rows, row.length = n) →
      ∀ row ∈ updCells r c v cols idx rows, row.length = n := by
  intro idx
  induction idx with
  | nil => intro rows h row hrow; exact h row (by simpa [updCells] using hrow)
  | cons rl rls ih =>
    intro rows h row hrow
    cases rows with
    | nil => simp [updCells] at hrow
    | cons r0 rs =>
      simp only [updCells, List.mem_cons] at hrow
      rcases hrow with h1 | h2
      · subst h1
        by_cases hrl : rl = r
        · simp [hrl, updRow_length, h r0 (List.mem_cons_self r0 rs)]
        · simp [hrl, h r0 (List.mem_cons_self r0 rs)]
      · exact ih rs (fun x hx => h x (List.mem_cons_of_mem _ hx)) row h2

/-! ### Lemmas about label-based cell assignment and corner blanking -/

theorem setCellByLabel_index (d : DFrame) (r c : Label) (v : Value) :
    (d.setCellByLabel r c v).index = d.index := rfl

theorem setCellByLabel_columns (d : DFrame) (r c : Label) (v : Value) :
    (d.setCellByLabel r c v).columns = d.columns := rfl

theorem setCellByLabel_dims (d : DFrame) (r c : Label) (v : Value) (hd : d.Dims) :
    (d.setCellByLabel r c v).Dims := by
  constructor
  · show (updCells r c v d.columns d.index d.cells).length = d.index.length
    rw [updCells_length]; exact hd.1
  · intro row hrow
    exact updCells_widths r c v d.columns d.index d.cells (fun x hx => hd.2 x hx) row hrow

theorem getD_mem_of_lt {α : Type} {l : List α} {i : Nat} (d : α) (h : i < l.length) :
    l.getD i d ∈ l := by
  induction l generalizing i with
  | nil => exact absurd h (Nat.not_lt_zero i)
  | cons a t ih =>
    cases i with
    | zero => simp
    | succ i' =>
      simp only [List.getD_cons_succ]
      exact List.mem_cons_of_mem _ (ih (Nat.lt_of_succ_lt_succ h))

theorem setCellByLabel_cellAt (d : DFrame) (r c : Label) (v : Value) (i j : Nat)
    (hd : d.Dims) (hi : i < d.index.length) (hj : j < d.columns.length) :
    (d.setCellByLabel r c v).cellAt i j =
      if d.index.getD i "" = r ∧ d.columns.getD j "" = c then v
      else d.cellAt i j := by
  have hrows : i < d.cells.length := by rw [hd.1]; exact hi
  show ((updCells r c v d.columns d.index d.cells).getD i []).getD j Value.none = _
  rw [updCells_getD r c v d.columns d.index d.cells i hi hrows]
  by_cases hr : d.index.getD i "" = r
  · rw [if_pos hr]
    have hw : (d.cells.getD i []).length = d.columns.length :=
      hd.2 _ (getD_mem_of_lt [] hrows)
    rw [updRow_getD c v d.columns (d.cells.getD i []) j hj (by rw [hw]; exact hj)]
    by_cases hc : d.columns.getD j "" = c
    · rw [if_pos hc, if_pos ⟨hr, hc⟩]
    · rw [if_neg hc, if_neg (fun h => hc h.2)]; rfl
  · rw [if_neg hr, if_neg (fun h => hr h.1)]; rfl

theorem foldl_setCell_index (r : Label) :
    ∀ (cols : List Label) (d : DFrame),
      (cols.foldl (fun acc2 c => acc2.setCellByLabel r c (Value.str "")) d).index = d.index := by
  intro cols
  induction cols with
  | nil => intro d; rfl
  | cons c0 cs ih =>
    intro d
    rw [List.foldl_cons, ih]
    rfl

theorem foldl_setCell_columns (r : Label) :
    ∀ (cols : List Label) (d : DFrame),
      (cols.foldl (fun acc2 c => acc2.setCellByLabel r c (Value.str "")) d).columns = d.columns := by
  intro cols
  induction cols with
  | nil => intro d; rfl
  | cons c0 cs ih =>
    intro d
    rw [List.foldl_cons, ih]
    rfl

theorem foldl_setCell_dims (r : Label) :
    ∀ (cols : List Label) (d : DFrame), d.Dims →
      (cols.foldl (fun acc2 c => acc2.setCellByLabel r c (Value.str "")) d).Dims := by
  intro cols
  induction cols with
  | nil => intro d hd; exact hd
  | cons c0 cs ih =>
    intro d hd
    rw [List.foldl_cons]
    exact ih _ (setCellByLabel_dims d r c0 (Value.str "") hd)

theorem foldl_setCell_cellAt (r : Label) :
    ∀ (cols : List Label) (d : DFrame), d.Dims →
      ∀ (i j : Nat), i < d.index.length → j < d.columns.length →
      (cols.foldl (fun acc2 c => acc2.setCellByLabel r c (Value.str "")) d).cellAt i j =
        if d.index.getD i "" = r ∧ d.columns.getD j "" ∈ cols then Value.str ""
        else d.cellAt i j := by
  intro cols
  induction cols with
  | nil =>
    intro d _ i j _ _
    rw [List.foldl_nil, if_neg (fun h => List.not_mem_nil _ h.2)]
  | cons c0 cs ih =>
    intro d hd i j hi hj
    rw [List.foldl_cons]
    have hd' := setCellByLabel_dims d r c0 (Value.str "") hd
    have hidx : (d.setCellByLabel r c0 (Value.str "")).index = d.index := rfl
    have hcols : (d.setCellByLabel r c0 (Value.str "")).columns = d.columns := rfl
    rw [ih (d.setCellByLabel r c0 (Value.str "")) hd' i j (by rw [hidx]; exact hi)
        (by rw [hcols]; exact hj)]
    rw [hidx, hcols, setCellByLabel_cellAt d r c0 (Value.str "") i j hd hi hj]
    simp only [List.mem_cons]
    split_ifs <;> first | rfl | (exfalso; tauto)

theorem blankCorners_index (d : DFrame) (rows cols : List Label) :
    (blankCorners d rows cols).index = d.index := by
  unfold blankCorners
  induction rows generalizing d with
  | nil => rfl
  | cons r0 rs ih =>
    rw [List.foldl_cons, ih]
    exact foldl_setCell_index r0 cols d

theorem blankCorners_columns (d : DFrame) (rows cols : List Label) :
    (blankCorners d rows cols).columns = d.columns := by
  unfold blankCorners
  induction rows generalizing d with
  | nil => rfl
  | cons r0 rs ih =>
    rw [List.foldl_cons, ih]
    exact foldl_setCell_columns r0 cols d

theorem blankCorners_dims (d : DFrame) (rows cols : List Label) (hd : d.Dims) :
    (blankCorners d rows cols).Dims := by
  unfold blankCorners
  induction rows generalizing d with
  | nil => exact hd
  | cons r0 rs ih =>
    rw [List.foldl_cons]
    exact ih _ (foldl_setCell_dims r0 cols d hd)

theorem blankCorners_cellAt (rows cols : List Label) :
    ∀ (d : DFrame), d.Dims →
      ∀ (i j : Nat), i < d.index.length → j < d.columns.length →
      (blankCorners d rows cols).cellAt i j =
        if d.index.getD i "" ∈ rows ∧ d.columns.getD j "" ∈ cols then Value.str ""
        else d.cellAt i j := by
  induction rows with
  | nil =>
    intro d _ i j _ _
    rw [show blankCorners d [] cols = d from rfl,
      if_neg (fun h => List.not_mem_nil _ h.1)]
  | cons r0 rs ih =>
    intro d hd i j hi hj
    have hstep : blankCorners d (r0 :: rs) cols =
        blankCorners (cols.foldl (fun acc2 c => acc2.setCellByLabel r0 c (Value.str "")) d) rs cols := by
      unfold blankCorners
      rw [List.foldl_cons]
    rw [hstep]
    have hd' := foldl_setCell_dims r0 cols d hd
    have hidx := foldl_setCell_index r0 cols d
    have hcols := foldl_setCell_columns r0 cols d
    rw [ih (cols.foldl (fun acc2 c => acc2.setCellByLabel r0 c (Value.str "")) d) hd'
      i j (by rw [hidx]; exact hi) (by rw [hcols]; exact hj)]
    rw [hidx, hcols, foldl_setCell_cellAt r0 cols d hd i j hi hj]
    simp only [List.mem_cons]
    split_ifs <;> first | rfl | (exfalso; tauto)

/-! ### Lemmas about the summary merge -/

theorem zipAppend_length :
    ∀ (a b : List (List Value)), b.length = a.length → (zipAppend a b).length = a.length := by
  intro a
  induction a with
  | nil =>
    intro b h
    cases b with
    | nil => rfl
    | cons s ss => simp at h
  | cons r rs ih =>
    intro b h
    cases b with
    | nil => rfl
    | cons s ss =>
      simp only [zipAppend, List.length_cons]
      rw [ih ss (by simpa using h)]

theorem hfold_index :
    ∀ (scols : List DFrame) (d : DFrame), (scols.foldl hconcatOne d).index = d.index := by
  intro scols
  induction scols with
  | nil => intro d; rfl
  | cons s ss ih =>
    intro d
    rw [List.foldl_cons, ih]
    rfl

theorem hfold_count :
    ∀ (scols : List DFrame) (d : DFrame),
      (∀ s ∈ scols, s.cells.length = d.cells.length) →
      (scols.foldl hconcatOne d).cells.length = d.cells.length := by
  intro scols
  induction scols with
  | nil => intro d _; rfl
  | cons s ss ih =>
    intro d h
    rw [List.foldl_cons]
    have hstep : (hconcatOne d s).cells.length = d.cells.length :=
      zipAppend_length d.cells s.cells (h s (List.mem_cons_self s ss))
    rw [ih (hconcatOne d s) (fun x hx => by
      rw [hstep]; exact h x (List.mem_cons_of_mem _ hx))]
    exact hstep

theorem vfold_columns :
    ∀ (srows : List DFrame) (d : DFrame), (srows.foldl vconcatOne d).columns = d.columns := by
  intro srows
  induction srows with
  | nil => intro d; rfl
  | cons s ss ih =>
    intro d
    rw [List.foldl_cons, ih]
    rfl

theorem vfold_index :
    ∀ (srows : List DFrame), (∀ s ∈ srows, s.index.length = 1) →
      ∀ (d : DFrame),
      (srows.foldl vconcatOne d).index = d.index ++ srows.map (fun s => s.index.getD 0 "") := by
  intro srows
  induction srows with
  | nil => intro _ d; simp
  | cons s ss ih =>
    intro h d
    rw [List.foldl_cons, ih (fun x hx => h x (List.mem_cons_of_mem _ hx))]
    obtain ⟨a, ha⟩ := List.length_eq_one.mp (h s (List.mem_cons_self s ss))
    have hidx : (vconcatOne d s).index = d.index ++ [a] := by
      show d.index ++ s.index = _
      rw [ha]
    have hga : s.index.getD 0 "" = a := by rw [ha]; rfl
    rw [hidx]
    simp only [List.map_cons, hga, List.append_assoc, List.singleton_append]

theorem vfold_count :
    ∀ (srows : List DFrame),
      (∀ s ∈ srows, s.cells.length = s.index.length) →
      ∀ (d : DFrame), d.cells.length = d.index.length →
      (srows.foldl vconcatOne d).cells.length = (srows.foldl vconcatOne d).index.length := by
  intro srows
  induction srows with
  | nil => intro _ d hd; exact hd
  | cons s ss ih =>
    intro h d hd
    rw [List.foldl_cons]
    refine ih (fun x hx => h x (List.mem_cons_of_mem _ hx)) (vconcatOne d s) ?_
    show (d.cells ++ s.cells.map _).length = (d.index ++ s.index).length
    rw [List.length_append, List.length_append, List.length_map, hd,
      h s (List.mem_cons_self s ss)]

theorem selectCols_columns (d : DFrame) (cs : List Label) :
    (selectCols d cs).columns = cs := rfl

theorem selectCols_index (d : DFrame) (cs : List Label) :
    (selectCols d cs).index = d.index := rfl

theorem selectCols_dims (d : DFrame) (cs : List Label)
    (h : d.cells.length = d.index.length) : (selectCols d cs).Dims := by
  constructor
  · show (d.cells.map _).length = d.index.length
    rw [List.length_map, h]
  · intro row hrow
    obtain ⟨r0, _, hr0⟩ := List.mem_map.mp hrow
    rw [← hr0]
    simp [selectCols_columns]

theorem mergeData_columns (data : DFrame) (srows scols : List DFrame) :
    (mergeData data srows scols).columns =
      data.columns ++ scols.map (fun s => s.columns.getD 0 "") := by
  unfold mergeData
  rw [blankCorners_columns]
  rfl

theorem mergeData_index (data : DFrame) (srows scols : List DFrame)
    (h1 : ∀ s ∈ srows, s.index.length = 1) :
    (mergeData data srows scols).index =
      data.index ++ srows.map (fun s => s.index.getD 0 "") := by
  unfold mergeData
  rw [blankCorners_index, selectCols_index, vfold_index srows h1, hfold_index]

/-! ### Lemmas about formatter application -/

theorem mapCells_index (d : DFrame) (ax : String) (sub : List Label) (fn : Value → Value) :
    (mapCells d ax sub fn).index = d.index := by
  unfold mapCells
  split <;> rfl

theorem mapCells_columns (d : DFrame) (ax : String) (sub : List Label) (fn : Value → Value) :
    (mapCells d ax sub fn).columns = d.columns := by
  unfold mapCells
  split <;> rfl

theorem mapRowCols_nil (fn : Value → Value) :
    ∀ (cols : List Label) (row : List Value), mapRowCols [] fn cols row = row := by
  intro cols
  induction cols with
  | nil => intro row; simp [mapRowCols]
  | cons c cs ih =>
    intro row
    cases row with
    | nil => simp [mapRowCols]
    | cons x xs => simp [mapRowCols, ih]

theorem mapCellsCols_nil (cols : List Label) (fn : Value → Value) :
    ∀ (rows : List (List Value)), mapCellsCols cols [] fn rows = rows := by
  intro rows
  induction rows with
  | nil => rfl
  | cons r rs ih => simp [mapCellsCols, mapRowCols_nil, ih]

theorem mapRowsIdx_nil (fn : Value → Value) :
    ∀ (idx : List Label) (rows : List (List Value)), mapRowsIdx [] fn idx rows = rows := by
  intro idx
  induction idx with
  | nil => intro rows; simp [mapRowsIdx]
  | cons i0 is0 ih =>
    intro rows
    cases rows with
    | nil => simp [mapRowsIdx]
    | cons r rs => simp [mapRowsIdx, ih]

theorem mapCells_nil (d : DFrame) (ax : String) (fn : Value → Value) :
    mapCells d ax [] fn = d := by
  unfold mapCells
  split
  · rw [mapCellsCols_nil]
  · rw [mapRowsIdx_nil]

theorem applyOneFormatter_index (d : DFrame) (f : Formatter) :
    (applyOneFormatter d f).index = d.index := by
  rcases f with ⟨sub, ex, ax, fn⟩
  cases sub with
  | none =>
    cases ex with
    | none => exact mapCells_index d ax _ fn
    | some exl => exact mapCells_index d ax _ fn
  | some s =>
    simp only [applyOneFormatter]
    by_cases hs :
        List.filter (fun x => x ∈ (if ax = "columns" then d.columns else d.index)) s = []
    · rw [if_pos hs]
    · rw [if_neg hs]
      cases ex with
      | none => exact mapCells_index d ax _ fn
      | some exl => exact mapCells_index d ax _ fn

theorem applyOneFormatter_columns (d : DFrame) (f : Formatter) :
    (applyOneFormatter d f).columns = d.columns := by
  rcases f with ⟨sub, ex, ax, fn⟩
  cases sub with
  | none =>
    cases ex with
    | none => exact mapCells_columns d ax _ fn
    | some exl => exact mapCells_columns d ax _ fn
  | some s =>
    simp only [applyOneFormatter]
    by_cases hs :
        List.filter (fun x => x ∈ (if ax = "columns" then d.columns else d.index)) s = []
    · rw [if_pos hs]
    · rw [if_neg hs]
      cases ex with
      | none => exact mapCells_columns d ax _ fn
      | some exl => exact mapCells_columns d ax _ fn

theorem resolvedTarget_congr (f : Formatter) {d d' : DFrame}
    (h1 : d'.index = d.index) (h2 : d'.columns = d.columns) :
    resolvedTarget f d' = resolvedTarget f d := by
  unfold resolvedTarget
  rw [h1, h2]

theorem applyOneFormatter_noop (d : DFrame) (f : Formatter)
    (h : resolvedTarget f d = []) : applyOneFormatter d f = d := by
  rcases f with ⟨sub, ex, ax, fn⟩
  cases sub with
  | none =>
    cases ex with
    | none =>
      simp only [resolvedTarget] at h
      show mapCells d ax (if ax = "columns" then d.columns else d.index) fn = d
      rw [h, mapCells_nil]
    | some exl =>
      simp only [resolvedTarget] at h
      show mapCells d ax
        (List.filter (fun x => x ∉ exl) (if ax = "columns" then d.columns else d.index)) fn = d
      rw [h, mapCells_nil]
  | some s =>
    cases ex with
    | none =>
      simp only [resolvedTarget] at h
      simp only [applyOneFormatter]
      rw [if_pos h]
    | some exl =>
      simp only [resolvedTarget] at h
      simp only [applyOneFormatter]
      by_cases hs :
          List.filter (fun x => x ∈ (if ax = "columns" then d.columns else d.index)) s = []
      · rw [if_pos hs]
      · rw [if_neg hs, h, mapCells_nil]

theorem applyFormattersList_fst :
    ∀ (l : List Formatter) (d : DFrame),
      (applyFormattersList l d).fst.index = d.index ∧
      (applyFormattersList l d).fst.columns = d.columns := by
  intro l
  induction l with
  | nil => intro d; exact ⟨rfl, rfl⟩
  | cons f fs ih =>
    intro d
    have hstep : applyFormattersList (f :: fs) d =
        if f.axis = "columns" ∨ f.axis = "rows" then
          applyFormattersList fs (applyOneFormatter d f)
        else (d, Option.some PPError.invalidAxis) := rfl
    rw [hstep]
    by_cases h : f.axis = "columns" ∨ f.axis = "rows"
    · rw [if_pos h]
      obtain ⟨h1, h2⟩ := ih (applyOneFormatter d f)
      exact ⟨h1.trans (applyOneFormatter_index d f), h2.trans (applyOneFormatter_columns d f)⟩
    · rw [if_neg h]
      exact ⟨rfl, rfl⟩

theorem applyFormattersList_err :
    ∀ (l : List Formatter) (d : DFrame),
      (∃ f ∈ l, f.axis ≠ "rows" ∧ f.axis ≠ "columns") →
      (applyFormattersList l d).snd = Option.some PPError.invalidAxis := by
  intro l
  induction l with
  | nil =>
    intro d h
    obtain ⟨f, hf, _⟩ := h
    cases hf
  | cons g gs ih =>
    intro d h
    obtain ⟨f, hf, hbad⟩ := h
    show (if g.axis = "columns" ∨ g.axis = "rows" then
        applyFormattersList gs (applyOneFormatter d g)
      else (d, Option.some PPError.invalidAxis)).snd = _
    by_cases hg : g.axis = "columns" ∨ g.axis = "rows"
    · rw [if_pos hg]
      apply ih
      rcases List.mem_cons.mp hf with he | hin
      · subst he
        rcases hg with hg | hg
        · exact absurd hg hbad.2
        · exact absurd hg hbad.1
      · exact ⟨f, hin, hbad⟩
    · rw [if_neg hg]

theorem applyFormattersList_skip (f : Formatter)
    (hax : f.axis = "rows" ∨ f.axis = "columns") :
    ∀ (l1 l2 : List Formatter) (d : DFrame),
      resolvedTarget f d = [] →
      applyFormattersList (l1 ++ f :: l2) d = applyFormattersList (l1 ++ l2) d := by
  intro l1
  induction l1 with
  | nil =>
    intro l2 d h
    have hax' : f.axis = "columns" ∨ f.axis = "rows" := hax.symm
    show (if f.axis = "columns" ∨ f.axis = "rows" then
        applyFormattersList l2 (applyOneFormatter d f)
      else (d, Option.some PPError.invalidAxis)) = applyFormattersList l2 d
    rw [if_pos hax', applyOneFormatter_noop d f h]
  | cons g gs ih =>
    intro l2 d h
    show (if g.axis = "columns" ∨ g.axis = "rows" then
        applyFormattersList (gs ++ f :: l2) (applyOneFormatter d g)
      else (d, Option.some PPError.invalidAxis)) =
      (if g.axis = "columns" ∨ g.axis = "rows" then
        applyFormattersList (gs ++ l2) (applyOneFormatter d g)
      else (d, Option.some PPError.invalidAxis))
    by_cases hg : g.axis = "columns" ∨ g.axis = "rows"
    · rw [if_pos hg, if_pos hg]
      apply ih
      rw [resolvedTarget_congr f (applyOneFormatter_index d g) (applyOneFormatter_columns d g)]
      exact h
    · rw [if_neg hg, if_neg hg]

/-! ### The render pipeline as an explicit case split -/

theorem get_formatted_df_eq (st : PrettyState) :
    get_formatted_df st =
      match applyFormattersList st.formatters
          (mergeData st.data st.summary_rows st.summary_cols) with
      | (d, Option.some e) => (Except.error e, { apply_summaries st with data := d })
      | (d, Option.none) =>
        (Except.ok (match st.replace_all_nans_with with
            | Option.some s => nanReplaceDF s d
            | Option.none => d),
         { apply_summaries st with data := st.data, index := d.index, columns := d.columns }) := rfl

theorem nanReplaceDF_index (s : String) (d : DFrame) : (nanReplaceDF s d).index = d.index := rfl

theorem nanReplaceDF_columns (s : String) (d : DFrame) : (nanReplaceDF s d).columns = d.columns := rfl

/-! ### Lemmas about the header merge of the render tree -/

theorem mergeHeadRows_ok :
    ∀ (h0 h1 : List HCell), (∀ p ∈ h0.zip h1, isBlank p.1 ≠ isBlank p.2) →
      mergeHeadRows h0 h1 =
        Option.some ((h0.zip h1).map (fun p => if isBlank p.1 then p.2 else p.1)) := by
  intro h0
  induction h0 with
  | nil => intro h1 _; cases h1 <;> rfl
  | cons c0 r0 ih =>
    intro h1 h
    cases h1 with
    | nil => rfl
    | cons c1 r1 =>
      have hhead : isBlank c0 ≠ isBlank c1 :=
        h (c0, c1) (by simp [List.zip_cons_cons])
      have htail : ∀ p ∈ r0.zip r1, isBlank p.1 ≠ isBlank p.2 := by
        intro p hp
        exact h p (by simp [List.zip_cons_cons, hp])
      cases hb0 : isBlank c0 <;> cases hb1 : isBlank c1
      · exact absurd (hb0.trans hb1.symm) hhead
      · simp [mergeHeadRows, hb0, hb1, ih r1 htail, List.zip_cons_cons]
      · simp [mergeHeadRows, hb0, hb1, ih r1 htail, List.zip_cons_cons]
      · exact absurd (hb0.trans hb1.symm) hhead

theorem mergeHeadRows_fail :
    ∀ (h0 h1 : List HCell), (∃ p ∈ h0.zip h1, isBlank p.1 = isBlank p.2) →
      mergeHeadRows h0 h1 = Option.none := by
  intro h0
  induction h0 with
  | nil =>
    intro h1 h
    obtain ⟨p, hp, _⟩ := h
    simp at hp
  | cons c0 r0 ih =>
    intro h1 h
    cases h1 with
    | nil =>
      obtain ⟨p, hp, _⟩ := h
      simp at hp
    | cons c1 r1 =>
      obtain ⟨p, hp, heq⟩ := h
      rcases List.mem_cons.mp (by simpa [List.zip_cons_cons] using hp) with he | hin
      · subst he
        cases hb0 : isBlank c0 <;> cases hb1 : isBlank c1 <;>
          simp_all [mergeHeadRows]
      · have : mergeHeadRows r0 r1 = Option.none := ih r1 ⟨p, hin, heq⟩
        cases hb0 : isBlank c0 <;> cases hb1 : isBlank c1 <;>
          simp [mergeHeadRows, hb0, hb1, this]

/-! ### Supporting lemmas for the summary claims -/

theorem buildOutputs_subset_ok (data : DFrame) (a : Int) (s : List Label) :
    ∀ (l : List (AggFn × Label)),
      ∃ out, buildOutputs data a (Option.some s) l = Except.ok out := by
  intro l
  induction l with
  | nil => exact ⟨[], rfl⟩
  | cons p rest ih =>
    obtain ⟨out, hout⟩ := ih
    rcases p with ⟨f, t⟩
    by_cases h : a = 0
    · exact ⟨_, by simp only [buildOutputs]; rw [if_pos h, hout]⟩
    · exact ⟨_, by simp only [buildOutputs]; rw [if_neg h, hout]⟩

/-! ### The claims -/

/-- C9: in render post-processing, two header rows are collapsed cell-by-cell,
each position taking whichever of the pair is non-blank; when some column
position has no unambiguous non-blank candidate (both blank or neither blank),
the merge is abandoned and both header rows are kept, without an error. -/
theorem claim_header_merge (h0 h1 : List HCell) :
    ((∀ p ∈ h0.zip h1, isBlank p.1 ≠ isBlank p.2) →
      translateHead [h0, h1] =
        [(h0.zip h1).map (fun p => if isBlank p.1 then p.2 else p.1)]) ∧
    ((∃ p ∈ h0.zip h1, isBlank p.1 = isBlank p.2) →
      translateHead [h0, h1] = [h0, h1]) := by
  constructor
  · intro h
    show (match mergeHeadRows h0 h1 with
      | Option.some merged => [merged]
      | Option.none => [h0, h1]) = _
    rw [mergeHeadRows_ok h0 h1 h]
  · intro h
    show (match mergeHeadRows h0 h1 with
      | Option.some merged => [merged]
      | Option.none => [h0, h1]) = _
    rw [mergeHeadRows_fail h0 h1 h]

/-- C9 witness: a concrete mergeable pair of header rows collapses to the
pointwise non-blank cells, and a concrete unmergeable pair is kept as is. -/
theorem claim_header_merge_witness :
    translateHead [[⟨["blank"], ""⟩, ⟨["col_heading"], "A"⟩],
        [⟨["index_name"], "idx"⟩, ⟨["blank"], ""⟩]] =
      [([(⟨["blank"], ""⟩ : HCell), ⟨["col_heading"], "A"⟩].zip
          [(⟨["index_name"], "idx"⟩ : HCell), ⟨["blank"], ""⟩]).map
        (fun p => if isBlank p.1 then p.2 else p.1)] ∧
    translateHead [[(⟨["blank"], ""⟩ : HCell)], [(⟨["blank"], ""⟩ : HCell)]] =
      [[(⟨["blank"], ""⟩ : HCell)], [(⟨["blank"], ""⟩ : HCell)]] :=
  ⟨(claim_header_merge [⟨["blank"], ""⟩, ⟨["col_heading"], "A"⟩]
      [⟨["index_name"], "idx"⟩, ⟨["blank"], ""⟩]).1 (by decide),
   (claim_header_merge [⟨["blank"], ""⟩] [⟨["blank"], ""⟩]).2 (by decide)⟩

/-- C10: `multi_summary` with an axis other than 0, 1, `None` and an explicit
subset never raises the invalid-axis `ValueError` (it is constructed but not
raised, `styler.py:206`): the summaries are computed, discarded without being
appended to either summary list, and the instance is returned unchanged. -/
theorem claim_invalid_axis_summary_silent (st : PrettyState) (funcs : List AggFn)
    (titles : List Label) (a : Int) (sub : List Label) (ex : Option (List Label))
    (h0 : a ≠ 0) (h1 : a ≠ 1) :
    multi_summary st funcs titles (Option.some a) (Option.some sub) ex = Except.ok st := by
  show multi_summary_ax st funcs titles a (Option.some sub) ex = Except.ok st
  simp only [multi_summary_ax]
  have hcond : ¬ (ex.isSome = true ∧ (Option.some sub).isNone = true) := by simp
  rw [if_neg hcond]
  obtain ⟨out, hout⟩ := buildOutputs_subset_ok st.data a sub (funcs.zip titles)
  rw [hout]
  show (if a = 0 then
      Except.ok { st with summary_rows := st.summary_rows ++ List.map DFrame.transposeF out }
    else if a = 1 then
      Except.ok { st with summary_cols := st.summary_cols ++ out }
    else Except.ok st) = Except.ok st
  rw [if_neg h0, if_neg h1]

/-- C10 witness: a concrete invalid-axis call with a subset returns the
instance unchanged and raises nothing. -/
theorem claim_invalid_axis_summary_silent_witness :
    multi_summary st0 [sumA] ["Total"] (Option.some 2) (Option.some ["A"]) Option.none =
      Except.ok st0 :=
  claim_invalid_axis_summary_silent st0 [sumA] ["Total"] 2 ["A"] Option.none
    (by decide) (by decide)

/-- C7 (amended): `multi_summary` with `axis=None` is the sequential
composition of the `axis=0` call followed by the `axis=1` call with the same
functions and titles, but with `subset` and `exclude` reset to `None` — the
source forwards only `funcs`, `titles` and `**kwargs` in the recursion
(`styler.py:172-174`), so `subset` and `exclude` are dropped. -/
theorem claim_axis_none_recursion (st : PrettyState) (funcs : List AggFn)
    (titles : List Label) (subset exclude : Option (List Label)) :
    multi_summary st funcs titles Option.none subset exclude =
      match multi_summary st funcs titles (Option.some 0) Option.none Option.none with
      | Except.error e => Except.error e
      | Except.ok s1 => multi_summary s1 funcs titles (Option.some 1) Option.none Option.none := rfl

/-- C7 counterexample: with a subset supplied, `multi_summary` with
`axis=None` is NOT equivalent to the `axis=0` call followed by the `axis=1`
call with that same subset: on a concrete table the `axis=None` call ignores
the subset (summing every column), while the sequential calls respect it. -/
theorem claim_axis_none_recursion_cex :
    rowsOf (multi_summary st0 [sumA] ["Total"] Option.none
        (Option.some ["A"]) Option.none) ≠
      rowsOf ((multi_summary st0 [sumA] ["Total"] (Option.some 0)
          (Option.some ["A"]) Option.none).bind
        (fun s1 => multi_summary s1 [sumA] ["Total"] (Option.some 1)
          (Option.some ["A"]) Option.none)) := by
  decide

/-- C8: a summary added with an explicit subset spans the full extent of its
axis — every axis label appears in the produced summary frame, subset labels
carrying the aggregated value and the remaining labels carrying `None` — and
when `subset` is omitted but `exclude` is given, the subset is computed as all
axis labels minus the excluded ones. -/
theorem claim_subset_summary_spans (st : PrettyState) (f : AggFn) (t : Label)
    (s : List Label) (funcs : List AggFn) (titles : List Label) (ax : Int)
    (ex : List Label) :
    (multi_summary_ax st [f] [t] 0 (Option.some s) Option.none =
      Except.ok { st with summary_rows := st.summary_rows ++
        [{ index := [t], columns := st.data.columns,
           cells := [(st.data.columns.zip st.data.colsOf).map
             (fun p => if p.1 ∈ s then f p.2 else Value.none)] }] }) ∧
    (multi_summary_ax st [f] [t] 1 (Option.some s) Option.none =
      Except.ok { st with summary_cols := st.summary_cols ++
        [{ index := st.data.index, columns := [t],
           cells := (st.data.index.zip st.data.cells).map
             (fun p => [if p.1 ∈ s then f p.2 else Value.none]) }] }) ∧
    (multi_summary_ax st funcs titles ax Option.none (Option.some ex) =
      multi_summary_ax st funcs titles ax
        (Option.some ((if ax = 0 then st.data.columns else st.data.index).filter
          (fun n => n ∉ ex))) (Option.some ex)) := by
  refine ⟨?_, rfl, rfl⟩
  have hT : DFrame.transposeF
      { index := st.data.columns, columns := [t],
        cells := (st.data.columns.zip st.data.colsOf).map
          (fun p => [if p.1 ∈ s then f p.2 else Value.none]) } =
      { index := [t], columns := st.data.columns,
        cells := [(st.data.columns.zip st.data.colsOf).map
          (fun p => if p.1 ∈ s then f p.2 else Value.none)] } := by
    unfold DFrame.transposeF
    have hr1 : List.range (1 : Nat) = [0] := rfl
    simp only [hr1, List.map_cons, List.map_nil, List.map_map]
    rfl
  rw [← hT]
  rfl

/-- C8 witness: the three parts of the subset claim at a concrete state,
function, title, subset and exclude list. -/
theorem claim_subset_summary_spans_witness :
    (multi_summary_ax st0 [sumA] ["Total"] 0 (Option.some ["A"]) Option.none =
      Except.ok { st0 with summary_rows := st0.summary_rows ++
        [{ index := ["Total"], columns := st0.data.columns,
           cells := [(st0.data.columns.zip st0.data.colsOf).map
             (fun p => if p.1 ∈ ["A"] then sumA p.2 else Value.none)] }] }) ∧
    (multi_summary_ax st0 [sumA] ["Total"] 1 (Option.some ["A"]) Option.none =
      Except.ok { st0 with summary_cols := st0.summary_cols ++
        [{ index := st0.data.index, columns := ["Total"],
           cells := (st0.data.index.zip st0.data.cells).map
             (fun p => [if p.1 ∈ ["A"] then sumA p.2 else Value.none]) }] }) ∧
    (multi_summary_ax st0 [sumA] ["Total"] 0 Option.none (Option.some ["B"]) =
      multi_summary_ax st0 [sumA] ["Total"] 0
        (Option.some ((if (0 : Int) = 0 then st0.data.columns else st0.data.index).filter
          (fun n => n ∉ ["B"]))) (Option.some ["B"])) :=
  claim_subset_summary_spans st0 sumA "Total" ["A"] [sumA] ["Total"] 0 ["B"]

/-- C5: a registered formatter whose axis is neither `"rows"` nor `"columns"`
makes formatter application — and hence the render call — fail with the
invalid-axis error, while registering a formatter via `_format_cells` never
raises: it only appends the formatter record and returns the instance. -/
theorem claim_invalid_axis_raises (st : PrettyState) (f : Formatter)
    (hf : f ∈ st.formatters) (hax : f.axis ≠ "rows" ∧ f.axis ≠ "columns")
    (fn : Value → Value) (sub ex : Option (List Label)) (ax : String) :
    (get_formatted_df st).fst = Except.error PPError.invalidAxis ∧
    format_cells st fn sub ex ax =
      { st with formatters := st.formatters ++ [⟨sub, ex, ax, fn⟩] } := by
  constructor
  · rw [get_formatted_df_eq]
    rcases hav : applyFormattersList st.formatters
        (mergeData st.data st.summary_rows st.summary_cols) with ⟨d0, oerr⟩
    have herr := applyFormattersList_err st.formatters
      (mergeData st.data st.summary_rows st.summary_cols) ⟨f, hf, hax⟩
    rw [hav] at herr
    cases oerr with
    | none => simp at herr
    | some e =>
      have he : e = PPError.invalidAxis := by simpa using herr
      subst he
      rfl
  · rfl

/-- C5 witness: at the concrete state `stC4` the render call fails with the
invalid-axis error, while a concrete registration via `_format_cells` merely
appends the formatter record. -/
theorem claim_invalid_axis_raises_witness :
    (get_formatted_df stC4).fst = Except.error PPError.invalidAxis ∧
    format_cells stC4 (fun v => v) Option.none Option.none "rows" =
      { stC4 with formatters := stC4.formatters ++
        [⟨Option.none, Option.none, "rows", fun v => v⟩] } :=
  claim_invalid_axis_raises stC4 badFmt (List.mem_cons_self badFmt [])
    (by decide) (fun v => v) Option.none Option.none "rows"

/-- The render output (the `fst` component of `get_formatted_df`) depends only
on the stored table, the summary lists, the formatter list and the
nan-replacement policy — not on the style list or the cached index/columns. -/
theorem get_formatted_df_fst_congr (s1 s2 : PrettyState)
    (hd : s1.data = s2.data) (hr : s1.summary_rows = s2.summary_rows)
    (hc : s1.summary_cols = s2.summary_cols) (hf : s1.formatters = s2.formatters)
    (hn : s1.replace_all_nans_with = s2.replace_all_nans_with) :
    (get_formatted_df s1).fst = (get_formatted_df s2).fst := by
  rw [get_formatted_df_eq, get_formatted_df_eq, hd, hr, hc, hf, hn]
  rcases applyFormattersList s2.formatters
      (mergeData s2.data s2.summary_rows s2.summary_cols) with ⟨d0, oerr⟩
  cases oerr <;> rfl

/-- C6 (amended): a registered formatter whose axis is valid (`"rows"` or
`"columns"`) and whose resolved target label set against the merged table
(subset restricted to the labels of its axis, minus the excluded labels) is
empty is a no-op: the render output with it registered is identical — the
same formatted table, or the same error — to the render output of the state
without it; in particular it raises no error of its own.  (The claim as
frozen omits the valid-axis condition; see the counterexample.) -/
theorem claim_empty_subset_noop (st st' : PrettyState) (f : Formatter)
    (l1 l2 : List Formatter)
    (hax : f.axis = "rows" ∨ f.axis = "columns")
    (hsplit : st.formatters = l1 ++ f :: l2)
    (hsplit' : st'.formatters = l1 ++ l2)
    (hdata : st'.data = st.data) (hsr : st'.summary_rows = st.summary_rows)
    (hsc : st'.summary_cols = st.summary_cols)
    (hnan : st'.replace_all_nans_with = st.replace_all_nans_with)
    (hempty : resolvedTarget f (mergeData st.data st.summary_rows st.summary_cols) = []) :
    (get_formatted_df st).fst = (get_formatted_df st').fst := by
  rw [get_formatted_df_eq, get_formatted_df_eq, hsplit, hsplit', hdata, hsr, hsc, hnan,
    applyFormattersList_skip f hax l1 l2
      (mergeData st.data st.summary_rows st.summary_cols) hempty]
  rcases applyFormattersList (l1 ++ l2)
      (mergeData st.data st.summary_rows st.summary_cols) with ⟨d0, oerr⟩
  cases oerr <;> rfl

/-- C6 counterexample: the claim as frozen fails when the empty-target
formatter also has an invalid axis, because `_apply_formatters` checks the
axis before resolving the subset: at `stC6` the formatter's resolved target
set is empty, yet the render call raises the invalid-axis error, while the
same state without the formatter renders without error. -/
theorem claim_empty_subset_noop_cex :
    resolvedTarget emptyBadFmt (mergeData stC6.data stC6.summary_rows stC6.summary_cols) = [] ∧
    errOf (get_formatted_df stC6).fst = Option.some PPError.invalidAxis ∧
    errOf (get_formatted_df st0).fst = Option.none := by
  refine ⟨by decide, by decide, by decide⟩

/-- C6 witness: at the concrete states `stW6` (with the empty-target,
valid-axis formatter) and `st0` (without it) the render outputs coincide. -/
theorem claim_empty_subset_noop_witness :
    (get_formatted_df stW6).fst = (get_formatted_df st0).fst :=
  claim_empty_subset_noop stW6 st0 zFmt [] [] (Or.inr rfl) rfl rfl rfl rfl rfl rfl
    (by decide)

/-- C1: for every well-formed state — the stored table rectangular and the
registered summaries shaped as `multi_summary` produces them, with titles
unique per axis per the specification invariant — a successful render returns
a table whose columns are the original columns (in order) followed by the
summary-column titles (in registration order) and whose rows are the original
rows followed by the summary-row titles, so its column count is the original
column count plus the number of summary columns and its row count is the
original row count plus the number of summary rows. -/
theorem claim_render_shape (st : PrettyState) (hwf : st.WF) (d : DFrame)
    (st' : PrettyState) (h : get_formatted_df st = (Except.ok d, st')) :
    d.columns = st.data.columns ++ summaryColTitles st ∧
    d.index = st.data.index ++ summaryRowTitles st ∧
    d.columns.length = st.data.columns.length + st.summary_cols.length ∧
    d.index.length = st.data.index.length + st.summary_rows.length := by
  rw [get_formatted_df_eq] at h
  rcases hav : applyFormattersList st.formatters
      (mergeData st.data st.summary_rows st.summary_cols) with ⟨d0, oerr⟩
  rw [hav] at h
  cases oerr with
  | some e => simp at h
  | none =>
    have h1 : Except.ok (match st.replace_all_nans_with with
        | Option.some s => nanReplaceDF s d0
        | Option.none => d0) = Except.ok d := (Prod.ext_iff.mp h).1
    have hcols : d.columns = d0.columns := by
      cases hrep : st.replace_all_nans_with with
      | none =>
        rw [hrep] at h1
        rw [← Except.ok.inj h1]
      | some sN =>
        rw [hrep] at h1
        rw [← Except.ok.inj h1]
        rfl
    have hidx : d.index = d0.index := by
      cases hrep : st.replace_all_nans_with with
      | none =>
        rw [hrep] at h1
        rw [← Except.ok.inj h1]
      | some sN =>
        rw [hrep] at h1
        rw [← Except.ok.inj h1]
        rfl
    have hfl := applyFormattersList_fst st.formatters
      (mergeData st.data st.summary_rows st.summary_cols)
    rw [hav] at hfl
    have hc0 : d0.columns = (mergeData st.data st.summary_rows st.summary_cols).columns :=
      hfl.2
    have hi0 : d0.index = (mergeData st.data st.summary_rows st.summary_cols).index :=
      hfl.1
    have hmc := mergeData_columns st.data st.summary_rows st.summary_cols
    have hmi := mergeData_index st.data st.summary_rows st.summary_cols
      (fun s hs => (hwf.2.2 s hs).2.1)
    refine ⟨?_, ?_, ?_, ?_⟩
    · rw [hcols, hc0, hmc]; rfl
    · rw [hidx, hi0, hmi]; rfl
    · rw [hcols, hc0, hmc, List.length_append, List.length_map]
    · rw [hidx, hi0, hmi, List.length_append, List.length_map]

/-- C1 witness: the shape equations of `claim_render_shape` hold at the
concrete state `stW1`. -/
theorem claim_render_shape_witness :
    (okFrame (get_formatted_df stW1).fst).columns =
        stW1.data.columns ++ summaryColTitles stW1 ∧
    (okFrame (get_formatted_df stW1).fst).index =
        stW1.data.index ++ summaryRowTitles stW1 ∧
    (okFrame (get_formatted_df stW1).fst).columns.length =
        stW1.data.columns.length + stW1.summary_cols.length ∧
    (okFrame (get_formatted_df stW1).fst).index.length =
        stW1.data.index.length + stW1.summary_rows.length :=
  claim_render_shape stW1 (by decide) (okFrame (get_formatted_df stW1).fst)
    (get_formatted_df stW1).snd (by rfl)

/-- C2: after merging the summaries into the table, the cell at every pair of
a summary-row title and a summary-column title holds the empty value,
regardless of the aggregation functions that produced the summaries (the
claim quantifies over well-formed states, whose summary frames may hold
arbitrary values). -/
theorem claim_corner_cells_blank (st : PrettyState) (hwf : st.WF) (rt ct : Label)
    (hr : rt ∈ summaryRowTitles st) (hc : ct ∈ summaryColTitles st) :
    (apply_summaries st).data.getCellL rt ct = Value.str "" := by
  show (mergeData st.data st.summary_rows st.summary_cols).getCellL rt ct = Value.str ""
  have hmain :
      mergeData st.data st.summary_rows st.summary_cols =
        blankCorners
          (selectCols (st.summary_rows.foldl vconcatOne
              (st.summary_cols.foldl hconcatOne st.data))
            (st.data.columns ++ summaryColTitles st))
          (summaryRowTitles st) (summaryColTitles st) := rfl
  rw [hmain]
  set d3 := selectCols (st.summary_rows.foldl vconcatOne
      (st.summary_cols.foldl hconcatOne st.data))
    (st.data.columns ++ summaryColTitles st) with hd3def
  have hd3cols : d3.columns = st.data.columns ++ summaryColTitles st := rfl
  have hd2idx : (st.summary_rows.foldl vconcatOne
      (st.summary_cols.foldl hconcatOne st.data)).index =
      st.data.index ++ summaryRowTitles st := by
    rw [vfold_index st.summary_rows (fun s hs => (hwf.2.2 s hs).2.1), hfold_index]
    rfl
  have hd3idx : d3.index = st.data.index ++ summaryRowTitles st := hd2idx
  have hdims : d3.Dims := by
    apply selectCols_dims
    have hc1 : (st.summary_cols.foldl hconcatOne st.data).cells.length =
        st.data.cells.length :=
      hfold_count st.summary_cols st.data (fun s hs => by
        have hsw := hwf.2.1 s hs
        calc s.cells.length = s.index.length := hsw.2.2.1
          _ = st.data.index.length := by rw [hsw.1]
          _ = st.data.cells.length := (hwf.1.1).symm)
    have := vfold_count st.summary_rows (fun s hs => (hwf.2.2 s hs).2.2.1)
      (st.summary_cols.foldl hconcatOne st.data)
      (by rw [hc1, hfold_index]; exact hwf.1.1)
    exact this
  have hrt : rt ∈ d3.index := by
    rw [hd3idx]
    exact List.mem_append_right _ hr
  have hct : ct ∈ d3.columns := by
    rw [hd3cols]
    exact List.mem_append_right _ hc
  obtain ⟨i, hi, hilt, hgdi⟩ := lookupIdx_mem hrt
  obtain ⟨j, hj, hjlt, hgdj⟩ := lookupIdx_mem hct
  unfold DFrame.getCellL
  rw [blankCorners_index, blankCorners_columns, hi, hj]
  show (blankCorners d3 (summaryRowTitles st) (summaryColTitles st)).cellAt i j =
    Value.str ""
  rw [blankCorners_cellAt (summaryRowTitles st) (summaryColTitles st) d3 hdims i j
    hilt hjlt]
  rw [hgdi, hgdj, if_pos ⟨hr, hc⟩]

/-- C2 witness: at the concrete state `stW1` the corner cell at
(`Total`, `RowTotal`) of the merged table is the empty string. -/
theorem claim_corner_cells_blank_witness :
    (apply_summaries stW1).data.getCellL "Total" "RowTotal" = Value.str "" :=
  claim_corner_cells_blank stW1 (by decide) "Total" "RowTotal" (by decide) (by decide)

/-- C3 (amended): a successful render restores the stored table to its
pre-render value, keeps the summary, formatter and nan-policy registrations,
and a second render on the resulting state returns the same formatted table;
however beyond those registrations the render also leaves lasting changes of
other state — the summary CSS selectors are appended to the persistent
`table_styles` list and the cached index/columns are overwritten — so it is
not true that only the formatter and summary registrations persist (see the
counterexample). -/
theorem claim_render_restores_table (st : PrettyState) (d : DFrame)
    (st' : PrettyState) (h : get_formatted_df st = (Except.ok d, st')) :
    st'.data = st.data ∧ st'.summary_rows = st.summary_rows ∧
    st'.summary_cols = st.summary_cols ∧ st'.formatters = st.formatters ∧
    st'.replace_all_nans_with = st.replace_all_nans_with ∧
    (get_formatted_df st').fst = Except.ok d := by
  have hfst : (get_formatted_df st).fst = Except.ok d := by rw [h]
  rw [get_formatted_df_eq] at h
  rcases hav : applyFormattersList st.formatters
      (mergeData st.data st.summary_rows st.summary_cols) with ⟨d0, oerr⟩
  rw [hav] at h
  cases oerr with
  | some e => simp at h
  | none =>
    have h2 : ({ apply_summaries st with
        data := st.data
        index := d0.index
        columns := d0.columns } : PrettyState) = st' := congrArg Prod.snd h
    have hd : st'.data = st.data := by rw [← h2]
    have hsr : st'.summary_rows = st.summary_rows := by
      rw [← h2]
      rfl
    have hsc : st'.summary_cols = st.summary_cols := by
      rw [← h2]
      rfl
    have hf : st'.formatters = st.formatters := by
      rw [← h2]
      rfl
    have hn : st'.replace_all_nans_with = st.replace_all_nans_with := by
      rw [← h2]
      rfl
    refine ⟨hd, hsr, hsc, hf, hn, ?_⟩
    rw [get_formatted_df_fst_congr st' st hd hsr hsc hf hn, hfst]

/-- C3 counterexample: rendering persists more than the formatter and summary
registrations — at the concrete state `stC3` a successful render appends the
summary CSS selector to the persistent `table_styles` list, so the state
after rendering differs from the state before beyond the stored table and the
registrations; a second render therefore carries a longer style list. -/
theorem claim_render_restores_table_cex :
    (get_formatted_df stC3).snd.table_styles ≠ stC3.table_styles := by
  decide

/-- C3 witness: at the concrete state `stC3` the restoration equations and
the equality of the second render output hold. -/
theorem claim_render_restores_table_witness :
    (get_formatted_df stC3).snd.data = stC3.data ∧
    (get_formatted_df stC3).snd.summary_rows = stC3.summary_rows ∧
    (get_formatted_df stC3).snd.summary_cols = stC3.summary_cols ∧
    (get_formatted_df stC3).snd.formatters = stC3.formatters ∧
    (get_formatted_df stC3).snd.replace_all_nans_with = stC3.replace_all_nans_with ∧
    (get_formatted_df (get_formatted_df stC3).snd).fst =
      Except.ok (okFrame (get_formatted_df stC3).fst) :=
  claim_render_restores_table stC3 (okFrame (get_formatted_df stC3).fst)
    (get_formatted_df stC3).snd (by rfl)

/-- C4 (amended): when a step of the render pipeline fails — for example a
registered formatter has an invalid axis — the error surfaces synchronously
as the result of the render call and the render is aborted, but the render is
NOT atomic: the restoring assignment comes after the failing step, so the
stored table is left as the summaries-merged, partially formatted working
table rather than its pre-render value (see the counterexample). -/
theorem claim_render_error_keeps_merged (st : PrettyState) (e : PPError)
    (st' : PrettyState) (h : get_formatted_df st = (Except.error e, st')) :
    st'.data = (applyFormattersList st.formatters
      (mergeData st.data st.summary_rows st.summary_cols)).fst ∧
    st'.summary_rows = st.summary_rows ∧ st'.summary_cols = st.summary_cols ∧
    st'.formatters = st.formatters := by
  rw [get_formatted_df_eq] at h
  rcases hav : applyFormattersList st.formatters
      (mergeData st.data st.summary_rows st.summary_cols) with ⟨d0, oerr⟩
  rw [hav] at h
  cases oerr with
  | none => simp at h
  | some e2 =>
    have h2 : ({ apply_summaries st with data := d0 } : PrettyState) = st' :=
      congrArg Prod.snd h
    refine ⟨?_, ?_, ?_, ?_⟩ <;> rw [← h2] <;> rfl

/-- C4 counterexample: at the concrete state `stC4` (one summary row, one
invalid-axis formatter) the render call fails with the invalid-axis error and
leaves the stored table changed — the summary row is still merged in — so an
erroring render does have a lasting side effect on the stored table. -/
theorem claim_render_error_keeps_merged_cex :
    errOf (get_formatted_df stC4).fst = Option.some PPError.invalidAxis ∧
    (get_formatted_df stC4).snd.data ≠ stC4.data := by
  refine ⟨by decide, by decide⟩

/-- C4 witness: the amended description of the post-error state holds at the
concrete state `stC4`. -/
theorem claim_render_error_keeps_merged_witness :
    (get_formatted_df stC4).snd.data = (applyFormattersList stC4.formatters
      (mergeData stC4.data stC4.summary_rows stC4.summary_cols)).fst ∧
    (get_formatted_df stC4).snd.summary_rows = stC4.summary_rows ∧
    (get_formatted_df stC4).snd.summary_cols = stC4.summary_cols ∧
    (get_formatted_df stC4).snd.formatters = stC4.formatters :=
  claim_render_error_keeps_merged stC4 PPError.invalidAxis
    (get_formatted_df stC4).snd (by rfl)
